import Mathlib

/-!
Verification of the orchestration shell in `src/main.py`: a Flask service
with three routes (`/health`, `/ask`, `/reload`) over a process-wide
retrieval-augmented chain handle.  The chain itself (embeddings, vector
index, LLM completion) is delegated to external services, so it is modelled
as an abstract function from a query string to either an exception message
or a Python response value.
-/

set_option autoImplicit false

namespace MainPy

/-- Values exchanged as JSON bodies and manipulated as Python values inside
the handlers: `null`, booleans, integers, strings, arrays and objects
(Python dicts with string keys). -/
inductive JVal where
  | null
  | jbool (b : Bool)
  | jnum (n : Int)
  | jstr (s : String)
  | jarr (elems : List JVal)
  | jobj (fields : List (String × JVal))

/-- Python truthiness of a value, as used by `request.get_json(silent=True) or \x7b\x7d`:
`None`, `False`, `0`, the empty string, the empty list and the empty dict are
falsy; everything else is truthy. -/
def JVal.truthy : JVal → Bool
  | .null => false
  | .jbool b => b
  | .jnum n => n != 0
  | .jstr s => s != ""
  | .jarr xs => !xs.isEmpty
  | .jobj fs => !fs.isEmpty

/-- The Python type name of a value, as it appears in `AttributeError` messages. -/
def JVal.typeName : JVal → String
  | .null => "NoneType"
  | .jbool _ => "bool"
  | .jnum _ => "int"
  | .jstr _ => "str"
  | .jarr _ => "list"
  | .jobj _ => "dict"

/-- Whether the value is a Python string. -/
def JVal.isStr : JVal → Bool
  | .jstr _ => true
  | _ => false

/-- Characters removed by Python `str.strip()` with no argument
(the ASCII whitespace set). -/
def isPySpace (c : Char) : Bool :=
  c == ' ' || c == '\t' || c == '\n' || c == '\r' || c == '\x0b' || c == '\x0c'

/-- Python `s.strip()`: remove leading and trailing whitespace. -/
def pyStrip (s : String) : String :=
  String.mk (((s.toList.dropWhile isPySpace).reverse.dropWhile isPySpace).reverse)

/-- First binding of `key` in a Python dict, in insertion order. -/
def lookupField : List (String × JVal) → String → Option JVal
  | [], _ => none
  | (k, v) :: rest, key => if k = key then some v else lookupField rest key

/-- Python `data.get(key, default)`: the binding when `data` is a dict
(or the default when the key is absent); an `AttributeError` when `data`
is any other value. -/
def pyDictGet (data : JVal) (key : String) (dflt : JVal) : Except String JVal :=
  match data with
  | .jobj fs => .ok ((lookupField fs key).getD dflt)
  | v => .error (v.typeName ++ " object has no attribute get")

/-- Python `v.strip()` on an arbitrary value: strips when `v` is a string,
raises an `AttributeError` otherwise. -/
def pyStripVal : JVal → Except String String
  | .jstr s => .ok (pyStrip s)
  | v => .error (v.typeName ++ " object has no attribute strip")

/-- An HTTP response: status code and JSON body. -/
structure HttpResponse where
  status : Nat
  body : JVal

/-- The `except Exception` branch of `ask`: HTTP 500 whose `error` field is
the string `[server] ` followed by the short message of the exception. -/
def serverError (e : String) : HttpResponse :=
  ⟨500, .jobj [("error", .jstr ("[server] " ++ e))]⟩

/-- `request.get_json(silent=True) or \x7b\x7d`: an unparsable or absent body gives
`none` and is replaced by the empty dict, and so is any falsy parsed value. -/
def normalizeBody : Option JVal → JVal
  | none => .jobj []
  | some v => if v.truthy then v else .jobj []

/-- The `/ask` handler (`ask` in `src/main.py`).  `chain` models
`qa_chain.invoke`: it maps the query string either to the response dict or
to an exception message.  The result pairs the HTTP response with the list
of queries actually sent to the chain, so "the chain is never invoked" is
the statement that the list is empty.  Every exception raised inside the
`try` block is translated by `serverError`. -/
def ask (chain : String → Except String JVal) (body : Option JVal) :
    HttpResponse × List String :=
  let data := normalizeBody body
  match pyDictGet data "question" (.jstr "") with
  | .error e => (serverError e, [])
  | .ok qv =>
    match pyStripVal qv with
    | .error e => (serverError e, [])
    | .ok question =>
      if question = "" then
        (⟨400, .jobj [("error", .jstr "No question provided")]⟩, [])
      else
        match chain question with
        | .error e => (serverError e, [question])
        | .ok resp =>
          match pyDictGet resp "result" (.jstr "") with
          | .error e => (serverError e, [question])
          | .ok rv =>
            match pyStripVal rv with
            | .error e => (serverError e, [question])
            | .ok ans =>
              (⟨200, .jobj [("answer",
                  .jstr (if ans = "" then "No answer found." else ans))]⟩,
               [question])

/-- The `/health` handler: returns the static payload and reads nothing,
in particular not the chain handle `qa_chain` (passed here as `qa`). -/
def health {χ : Type} (_qa : χ) : HttpResponse :=
  ⟨200, .jobj [("status", .jstr "ok"), ("version", .jstr "v1")]⟩

/-- The `/reload` handler (`reload_knowledge` in `src/main.py`).
`envAdminToken` is `os.environ.get("ADMIN_TOKEN", "")` before the default is
applied; `headerToken` is the `X-Admin-Token` header; `build` models one run
of `build_qa_chain()` (its result, or the exception it raises); `qa_chain`
is the current process-wide chain.  The result is the chain handle after the
request together with either the HTTP response or a propagated exception. -/
def reload_knowledge {χ : Type} (envAdminToken : Option String)
    (headerToken : Option String) (build : Except String χ) (qa_chain : χ) :
    χ × Except String HttpResponse :=
  let admin_token := envAdminToken.getD ""
  let provided := pyStrip (headerToken.getD "")
  if admin_token = "" ∨ provided ≠ admin_token then
    (qa_chain, .ok ⟨401, .jobj [("error", .jstr "Unauthorized")]⟩)
  else
    match build with
    | .error e => (qa_chain, .error e)
    | .ok c => (c, .ok ⟨200, .jobj [("status", .jstr "reloaded")]⟩)

/-- The fatal startup message raised when `OPENAI_API_KEY` is missing. -/
def missingKeyMsg : String :=
  "OPENAI_API_KEY가 설정되지 않았습니다. Render 환경변수에 추가하세요."

/-- Module initialisation of `src/main.py` up to `qa_chain = build_qa_chain()`:
read `OPENAI_API_KEY` from the environment, raise a `RuntimeError` naming the
variable when it is absent or empty, otherwise build the initial chain with
the key (whose failure is also fatal).  The HTTP app is created only after
this succeeds, so an `.error` result means no endpoint is ever served. -/
def moduleStartup {χ : Type} (envOpenaiKey : Option String)
    (build : String → Except String χ) : Except String χ :=
  let key := envOpenaiKey.getD ""
  if key = "" then .error missingKeyMsg
  else build key

/-- Modelled from the spec: the document splitter is the external
`CharacterTextSplitter(chunk_size=600, chunk_overlap=80)` from a third-party
library, whose internals are not part of this repository.  The spec contract
(§4.2) asks for ordered chunks of a fixed target length with a fixed
character overlap between consecutive chunks, so the model is a sliding
window of width 600 advancing by 600 − 80 = 520 characters. -/
def windowChunks (cs : List Char) : List (List Char) :=
  if cs.length ≤ 600 then
    (if cs.isEmpty then [] else [cs])
  else
    cs.take 600 :: windowChunks (cs.drop 520)
termination_by cs.length
decreasing_by
  simp only [List.length_drop]
  omega

/-- Modelled from the spec: the ingestion/splitting step as a whole — the
chunk sequence obtained from the document text with chunk size 600 and
overlap 80. -/
def chunkDocument (text : String) : List String :=
  (windowChunks text.toList).map String.mk

/-- A body parsed to a JSON object is used as that dict by `ask` (an empty
object is falsy in Python, but it is replaced by the empty dict anyway). -/
theorem normalizeBody_obj (fs : List (String × JVal)) :
    normalizeBody (some (.jobj fs)) = .jobj fs := by
  cases fs <;> simp [normalizeBody, JVal.truthy]

/-- `strip` on any non-string Python value raises an `AttributeError`. -/
theorem pyStripVal_nonstr (v : JVal) (h : v.isStr = false) :
    pyStripVal v = .error (v.typeName ++ " object has no attribute strip") := by
  cases v <;> simp [JVal.isStr] at h ⊢ <;> rfl

/-- A constant healthy chain, used to instantiate witnesses. -/
def sampleChain : String → Except String JVal :=
  fun _ => Except.ok (JVal.jobj [])

/-- A chain that answers every query with the result text `" 42 "`. -/
def answerChain : String → Except String JVal :=
  fun _ => Except.ok (JVal.jobj [("result", JVal.jstr " 42 ")])

/-- A chain that raises with short message `"boom"` on every query. -/
def failingChain : String → Except String JVal :=
  fun _ => Except.error "boom"

/-- Claim C1: when the `/reload` token check succeeds and `build_qa_chain`
raises, the process-wide handle `qa_chain` keeps its previous value (the
assignment happens only after a successful build) and the exception
propagates; subsequent `/ask` requests therefore still use the old chain. -/
theorem reload_build_failure_preserves_chain {χ : Type} (envAdmin hdr : Option String)
    (e : String) (qa : χ)
    (hA : envAdmin.getD "" ≠ "")
    (hM : pyStrip (hdr.getD "") = envAdmin.getD "") :
    reload_knowledge envAdmin hdr (Except.error e) qa = (qa, Except.error e) := by
  simp [reload_knowledge, hA, hM]

/-- Witness for C1 at a concrete token and failing build. -/
theorem reload_build_failure_preserves_chain_witness :
    (some "tok" : Option String).getD "" ≠ "" ∧
    pyStrip ((some "tok" : Option String).getD "") = (some "tok" : Option String).getD "" ∧
    reload_knowledge (some "tok") (some "tok") (Except.error "boom") (0 : Nat) =
      ((0 : Nat), Except.error "boom") :=
  ⟨by decide, rfl,
    reload_build_failure_preserves_chain (some "tok") (some "tok") "boom" 0 (by decide) rfl⟩

/-- Counterexample for C2: with the admin secret configured as `" t "` and
header `"t"`, the trimmed header equals the trimmed secret — so the claim
predicts 200 — yet the code answers 401, because only the header is trimmed
and the configured secret is compared verbatim. -/
theorem reload_trim_counterexample :
    (some " t " : Option String).getD "" ≠ "" ∧
    pyStrip " t " = pyStrip "t" ∧
    (reload_knowledge (some " t ") (some "t") (Except.ok (0 : Nat)) (1 : Nat)).2 =
      Except.ok ⟨401, JVal.jobj [("error", JVal.jstr "Unauthorized")]⟩ :=
  ⟨by decide, rfl, rfl⟩

/-- Claim C2 (amended): when the rebuild succeeds, `/reload` answers 401 with
`error:Unauthorized` exactly when the `ADMIN_TOKEN` variable is unset or
empty, or the trimmed header differs from the configured secret taken
verbatim (the secret itself is never trimmed); otherwise it swaps the chain
and answers 200 with `status:reloaded`. -/
theorem reload_auth_amended {χ : Type} (envAdmin hdr : Option String) (c qa : χ) :
    reload_knowledge envAdmin hdr (Except.ok c) qa =
      if envAdmin.getD "" = "" ∨ pyStrip (hdr.getD "") ≠ envAdmin.getD "" then
        (qa, Except.ok ⟨401, JVal.jobj [("error", JVal.jstr "Unauthorized")]⟩)
      else
        (c, Except.ok ⟨200, JVal.jobj [("status", JVal.jstr "reloaded")]⟩) := by
  by_cases h : envAdmin.getD "" = "" ∨ pyStrip (hdr.getD "") ≠ envAdmin.getD "" <;>
    simp [reload_knowledge, h]

/-- Claim C3: when the `question` field is absent (so the default empty
string is used) or is a string that is blank after stripping, `/ask` answers
400 with an `error` field and the chain is never invoked (empty query log). -/
theorem ask_blank_question_rejected (chain : String → Except String JVal)
    (fs : List (String × JVal)) (s : String)
    (hq : pyDictGet (JVal.jobj fs) "question" (JVal.jstr "") = Except.ok (JVal.jstr s))
    (hs : pyStrip s = "") :
    ask chain (some (JVal.jobj fs)) =
      (⟨400, JVal.jobj [("error", JVal.jstr "No question provided")]⟩, []) := by
  simp [ask, normalizeBody_obj, hq, pyStripVal, hs]

/-- Witness for C3: a whitespace-only question. -/
theorem ask_blank_question_rejected_witness :
    pyDictGet (JVal.jobj [("question", JVal.jstr "  ")]) "question" (JVal.jstr "") =
        Except.ok (JVal.jstr "  ") ∧
    pyStrip "  " = "" ∧
    ask sampleChain (some (JVal.jobj [("question", JVal.jstr "  ")])) =
      (⟨400, JVal.jobj [("error", JVal.jstr "No question provided")]⟩, []) :=
  ⟨rfl, rfl,
    ask_blank_question_rejected sampleChain [("question", JVal.jstr "  ")] "  " rfl rfl⟩

/-- Claim C4: for a non-blank question, when the chain returns a response
dict whose `result` field is the string `r` (or is absent, giving the empty
default), `/ask` answers 200 with `answer` equal to the stripped result, or
the sentinel `No answer found.` when the stripped result is empty. -/
theorem ask_success_answer (chain : String → Except String JVal)
    (fs resp : List (String × JVal)) (s r : String)
    (hq : pyDictGet (JVal.jobj fs) "question" (JVal.jstr "") = Except.ok (JVal.jstr s))
    (hne : pyStrip s ≠ "")
    (hc : chain (pyStrip s) = Except.ok (JVal.jobj resp))
    (hr : pyDictGet (JVal.jobj resp) "result" (JVal.jstr "") = Except.ok (JVal.jstr r)) :
    ask chain (some (JVal.jobj fs)) =
      (⟨200, JVal.jobj [("answer",
          JVal.jstr (if pyStrip r = "" then "No answer found." else pyStrip r))]⟩,
       [pyStrip s]) := by
  simp [ask, normalizeBody_obj, hq, pyStripVal, hne, hc, hr]

/-- Witness for C4: question `" hi "`, chain result `" 42 "`, answer `42`. -/
theorem ask_success_answer_witness :
    pyDictGet (JVal.jobj [("question", JVal.jstr " hi ")]) "question" (JVal.jstr "") =
        Except.ok (JVal.jstr " hi ") ∧
    pyStrip " hi " ≠ "" ∧
    answerChain (pyStrip " hi ") = Except.ok (JVal.jobj [("result", JVal.jstr " 42 ")]) ∧
    pyDictGet (JVal.jobj [("result", JVal.jstr " 42 ")]) "result" (JVal.jstr "") =
        Except.ok (JVal.jstr " 42 ") ∧
    ask answerChain (some (JVal.jobj [("question", JVal.jstr " hi ")])) =
      (⟨200, JVal.jobj [("answer",
          JVal.jstr (if pyStrip " 42 " = "" then "No answer found." else pyStrip " 42 "))]⟩,
       [pyStrip " hi "]) :=
  ⟨rfl, by decide, rfl, rfl,
    ask_success_answer answerChain [("question", JVal.jstr " hi ")]
      [("result", JVal.jstr " 42 ")] " hi " " 42 " rfl (by decide) rfl rfl⟩

/-- Claim C5: any exception raised by the chain is caught inside the handler
(`ask` is a total function into responses), and the client receives 500 with
an `error` field that is exactly `[server] ` followed by the exception short
message — never a stack trace. -/
theorem ask_chain_error_translated (chain : String → Except String JVal)
    (fs : List (String × JVal)) (s e : String)
    (hq : pyDictGet (JVal.jobj fs) "question" (JVal.jstr "") = Except.ok (JVal.jstr s))
    (hne : pyStrip s ≠ "")
    (hc : chain (pyStrip s) = Except.error e) :
    ask chain (some (JVal.jobj fs)) =
      (⟨500, JVal.jobj [("error", JVal.jstr ("[server] " ++ e))]⟩, [pyStrip s]) := by
  simp [ask, normalizeBody_obj, hq, pyStripVal, hne, hc, serverError]

/-- Witness for C5: a chain that raises with short message `boom`. -/
theorem ask_chain_error_translated_witness :
    pyDictGet (JVal.jobj [("question", JVal.jstr "hi")]) "question" (JVal.jstr "") =
        Except.ok (JVal.jstr "hi") ∧
    pyStrip "hi" ≠ "" ∧
    failingChain (pyStrip "hi") = Except.error "boom" ∧
    ask failingChain (some (JVal.jobj [("question", JVal.jstr "hi")])) =
      (⟨500, JVal.jobj [("error", JVal.jstr ("[server] " ++ "boom"))]⟩, [pyStrip "hi"]) :=
  ⟨rfl, by decide, rfl,
    ask_chain_error_translated failingChain [("question", JVal.jstr "hi")] "hi" "boom"
      rfl (by decide) rfl⟩

/-- Claim C6: `/health` ignores the chain handle entirely: whatever the
chain state, it answers 200 with the static payload. -/
theorem health_static {χ : Type} (qa : χ) :
    health qa = ⟨200, JVal.jobj [("status", JVal.jstr "ok"), ("version", JVal.jstr "v1")]⟩ :=
  rfl

/-- Claim C7: with `OPENAI_API_KEY` absent or empty, module initialisation
stops with the fatal message, which names the missing variable (it starts
with `OPENAI_API_KEY`), for every possible chain builder — so no endpoint is
ever served. -/
theorem startup_missing_key_fatal {χ : Type} (envKey : Option String)
    (build : String → Except String χ)
    (h : envKey = none ∨ envKey = some "") :
    moduleStartup envKey build = Except.error missingKeyMsg ∧
      "OPENAI_API_KEY".toList.isPrefixOf missingKeyMsg.toList = true := by
  rcases h with h | h <;> subst h <;> exact ⟨rfl, by decide⟩

/-- Witness for C7 with the variable absent. -/
theorem startup_missing_key_fatal_witness :
    ((none : Option String) = none ∨ (none : Option String) = some "") ∧
    moduleStartup none (fun k => Except.ok k) = Except.error missingKeyMsg ∧
      "OPENAI_API_KEY".toList.isPrefixOf missingKeyMsg.toList = true :=
  ⟨Or.inl rfl, startup_missing_key_fatal none (fun k => Except.ok k) (Or.inl rfl)⟩

/-- Claim C8: chunking is deterministic — splitting byte-for-byte identical
documents with the fixed 600/80 parameters yields the identical ordered
chunk sequence, with the same chunk count. -/
theorem chunking_deterministic (d₁ d₂ : String) (h : d₁ = d₂) :
    chunkDocument d₁ = chunkDocument d₂ ∧
      (chunkDocument d₁).length = (chunkDocument d₂).length := by
  subst h
  exact ⟨rfl, rfl⟩

/-- Witness for C8 at a concrete document. -/
theorem chunking_deterministic_witness :
    ("office hours" : String) = "office hours" ∧
    chunkDocument "office hours" = chunkDocument "office hours" ∧
      (chunkDocument "office hours").length = (chunkDocument "office hours").length :=
  ⟨rfl, chunking_deterministic "office hours" "office hours" rfl⟩

/-- Counterexample for C9: the truthy non-object body `[1]` is not treated
like an empty object: `data.get` raises an `AttributeError`, so the handler
answers 500, not 400 (the chain is still never invoked). -/
theorem ask_truthy_nonobject_counterexample :
    JVal.truthy (JVal.jarr [JVal.jnum 1]) = true ∧
    ask sampleChain (some (JVal.jarr [JVal.jnum 1])) =
      (⟨500, JVal.jobj [("error", JVal.jstr "[server] list object has no attribute get")]⟩,
       []) :=
  ⟨rfl, rfl⟩

/-- Claim C9 (amended): a request body that is absent, unparsable, or a
falsy JSON value (`null`, `false`, `0`, empty string, empty array, empty
object) is treated exactly like an empty object: 400 with an `error` field
and the chain never invoked.  (A truthy non-object body instead raises and
yields 500, per the counterexample.) -/
theorem ask_falsy_body_like_empty (chain : String → Except String JVal) (body : Option JVal)
    (h : body = none ∨ ∃ v, body = some v ∧ v.truthy = false) :
    ask chain body =
      (⟨400, JVal.jobj [("error", JVal.jstr "No question provided")]⟩, []) := by
  have hd : normalizeBody body = JVal.jobj [] := by
    rcases h with h | ⟨v, hv, ht⟩
    · subst h; rfl
    · subst hv; simp [normalizeBody, ht]
  simp [ask, hd, pyDictGet, lookupField, pyStripVal, pyStrip]

/-- Witness for C9 at an absent body. -/
theorem ask_falsy_body_like_empty_witness :
    ((none : Option JVal) = none ∨ ∃ v, (none : Option JVal) = some v ∧ v.truthy = false) ∧
    ask sampleChain none =
      (⟨400, JVal.jobj [("error", JVal.jstr "No question provided")]⟩, []) :=
  ⟨Or.inl rfl, ask_falsy_body_like_empty sampleChain none (Or.inl rfl)⟩

/-- Claim C10: a non-string `question` value raises an `AttributeError` on
`.strip()` inside the `try` block, so the client gets 500 with the
`[server]`-prefixed message, not a 400, and the chain is never invoked. -/
theorem ask_nonstring_question_500 (chain : String → Except String JVal)
    (fs : List (String × JVal)) (v : JVal)
    (hq : pyDictGet (JVal.jobj fs) "question" (JVal.jstr "") = Except.ok v)
    (hns : v.isStr = false) :
    ask chain (some (JVal.jobj fs)) =
      (⟨500, JVal.jobj [("error",
          JVal.jstr ("[server] " ++ (v.typeName ++ " object has no attribute strip")))]⟩,
       []) := by
  simp [ask, normalizeBody_obj, hq, pyStripVal_nonstr v hns, serverError]

/-- Witness for C10: `question` bound to the number 3. -/
theorem ask_nonstring_question_500_witness :
    pyDictGet (JVal.jobj [("question", JVal.jnum 3)]) "question" (JVal.jstr "") =
        Except.ok (JVal.jnum 3) ∧
    JVal.isStr (JVal.jnum 3) = false ∧
    ask sampleChain (some (JVal.jobj [("question", JVal.jnum 3)])) =
      (⟨500, JVal.jobj [("error",
          JVal.jstr ("[server] " ++
            (JVal.typeName (JVal.jnum 3) ++ " object has no attribute strip")))]⟩,
       []) :=
  ⟨rfl, rfl,
    ask_nonstring_question_500 sampleChain [("question", JVal.jnum 3)] (JVal.jnum 3) rfl rfl⟩

end MainPy
